import Mathlib

/-!
# OpenAstroids core — shallow embedding

A Lean model of the per-frame simulation core of the `openastroids`
repository: `src/lib/openastroids/math.ts`, `random.ts`, `types.ts` and
`game.ts`.  Numeric fields of entities are modelled as real numbers
(positions, velocities, angles, timestamps), `lives`/`score` as integers
and `level` as a natural number (the program only ever stores integers
there).  The Mulberry32 generator is modelled exactly over naturals,
with each JavaScript 32-bit coercion written as `% 2^32`; the closure
state `t` is threaded explicitly through every function that consumes
random draws.  Identifier strings (`Math.floor(rng()*1e9).toString(36)`)
are modelled by the natural number being encoded, since base-36
rendering is injective.  The retry loop of `spawnAsteroids` can fail to
terminate for adversarial viewports, so it — and everything that calls
it — takes an explicit fuel argument and returns an `Option`.
-/

namespace OpenAstroids

/-! ## math.ts -/

noncomputable section

/-- `TAU = Math.PI * 2` -/
def TAU : ℝ := Real.pi * 2

/-- `clamp(value, min, max) = Math.max(min, Math.min(max, value))` -/
def clamp (value lo hi : ℝ) : ℝ := max lo (min hi value)

/-- 2D vector `{x, y}` (`Vec2` in `types.ts`). -/
structure Vec2 where
  x : ℝ
  y : ℝ

/-- `len(v) = Math.hypot(v.x, v.y)` -/
def len (v : Vec2) : ℝ := Real.sqrt (v.x ^ 2 + v.y ^ 2)

/-- vector addition -/
def add (a b : Vec2) : Vec2 := ⟨a.x + b.x, a.y + b.y⟩

/-- vector subtraction -/
def sub (a b : Vec2) : Vec2 := ⟨a.x - b.x, a.y - b.y⟩

/-- scalar multiplication `mul(v, s)` -/
def mul (v : Vec2) (s : ℝ) : Vec2 := ⟨v.x * s, v.y * s⟩

/-- `norm(v)`: normalize, returning the zero vector for magnitude ≤ 1e-9. -/
def norm (v : Vec2) : Vec2 :=
  let l := len v
  if l ≤ 1 / 1000000000 then ⟨0, 0⟩ else ⟨v.x / l, v.y / l⟩

/-- `fromAngle(a) = {x: Math.cos(a), y: Math.sin(a)}` -/
def fromAngle (angleRad : ℝ) : Vec2 := ⟨Real.cos angleRad, Real.sin angleRad⟩

/-- Single-step toroidal wrap of a position into `[0,width) × [0,height)`:
each extent is added (resp. subtracted) at most once per axis, exactly as in
`wrapPosition` of `math.ts`. -/
def wrapPosition (pos : Vec2) (width height : ℝ) : Vec2 :=
  let x := pos.x
  let y := pos.y
  let x := if x < 0 then x + width else x
  let x := if width ≤ x then x - width else x
  let y := if y < 0 then y + height else y
  let y := if height ≤ y then y - height else y
  ⟨x, y⟩

/-- Euclidean distance `dist(a, b) = Math.hypot(a.x-b.x, a.y-b.y)`. -/
def dist (a b : Vec2) : ℝ := Real.sqrt ((a.x - b.x) ^ 2 + (a.y - b.y) ^ 2)

/-- `randBetween(rng, min, max) = min + (max - min) * rng()`, with the draw
`q` already taken from the threaded generator state. -/
def randBetween (q lo hi : ℝ) : ℝ := lo + (hi - lo) * q

/-- JavaScript truncation toward zero, as a real-valued function. -/
def jsTrunc (x : ℝ) : ℝ := if 0 ≤ x then (⌊x⌋ : ℝ) else (⌈x⌉ : ℝ)

/-- The JavaScript `%` operator on numbers: `a - b * trunc(a / b)`. -/
def jsMod (a b : ℝ) : ℝ := a - b * jsTrunc (a / b)

/-- The angle-normalisation idiom `((a % TAU) + TAU) % TAU` used in `game.ts`. -/
def wrapAngle (a : ℝ) : ℝ := jsMod (jsMod a TAU + TAU) TAU

end

/-! ## random.ts — Mulberry32 -/

/-- The additive constant `0x6d2b79f5` of Mulberry32. -/
def MB32C : ℕ := 0x6d2b79f5

/-- One Mulberry32 output scramble of the counter value `t`, with every
JavaScript 32-bit coercion made explicit as `% 2^32`.  Models the body of
the closure returned by `createRng` in `random.ts` after `t += 0x6d2b79f5`. -/
def mulberry32 (t : ℕ) : ℕ :=
  let x0 := t % 4294967296
  let x1 := (Nat.xor x0 (x0 >>> 15) * (x0 ||| 1)) % 4294967296
  let x2 := Nat.xor x1 ((x1 + Nat.xor x1 (x1 >>> 7) * (x1 ||| 61) % 4294967296) % 4294967296)
  Nat.xor x2 (x2 >>> 14)

/-- `seed >>> 0`: JavaScript `ToUint32` on an integer seed. -/
def toUint32 (seed : ℤ) : ℕ := (seed % 4294967296).toNat

/-- One call of the generator, as a state transformer on the closure
variable `t`: the 32-bit output together with the new state. -/
def rngNext (t : ℕ) : ℕ × ℕ := (mulberry32 (t + MB32C), t + MB32C)

/-- The `[0,1)` rational value `u / 4294967296` returned by the generator. -/
def rngFloat (u : ℕ) : ℚ := (u : ℚ) / 4294967296

/-- One generator call yielding the real-valued draw used by the game code. -/
noncomputable def draw (t : ℕ) : ℝ × ℕ :=
  (((rngFloat (mulberry32 (t + MB32C)) : ℚ) : ℝ), t + MB32C)

/-- `id(rng) = Math.floor(rng() * 1e9).toString(36)`, modelled by the natural
number that gets base-36 encoded: `u * 10^9 / 2^32` (exact, because the
double-precision product `(u/2^32)*1e9` always floors to the exact value). -/
def idDraw (t : ℕ) : ℕ × ℕ :=
  (mulberry32 (t + MB32C) * 1000000000 / 4294967296, t + MB32C)

/-- The `n`-th output (0-based) of the generator created from `seed`, as the
raw 32-bit unsigned integer.  `createRng` initialises `t := seed >>> 0` and
each call advances `t` by the constant before scrambling. -/
def rngSeqU (seed : ℤ) (n : ℕ) : ℕ := mulberry32 (toUint32 seed + (n + 1) * MB32C)

/-- The `n`-th output of the generator created from `seed`, in `[0,1)`. -/
def rngSeqQ (seed : ℤ) (n : ℕ) : ℚ := rngFloat (rngSeqU seed n)

/-! ## types.ts -/

noncomputable section

/-- The player-controlled `Ship`. -/
structure Ship where
  pos : Vec2
  vel : Vec2
  angle : ℝ
  radius : ℝ
  invincibleUntilMs : ℝ
  canFireAtMs : ℝ

/-- A `Bullet` (Projectile). -/
structure Bullet where
  id : ℕ
  pos : Vec2
  vel : Vec2
  radius : ℝ
  bornAtMs : ℝ

/-- An `Asteroid` (Obstacle); `size` is `3 = large`, `2 = medium`, `1 = small`. -/
structure Asteroid where
  id : ℕ
  pos : Vec2
  vel : Vec2
  angle : ℝ
  spin : ℝ
  radius : ℝ
  size : ℕ
  shape : List ℝ

/-- A cosmetic `Explosion` effect. -/
structure Explosion where
  id : ℕ
  pos : Vec2
  bornAtMs : ℝ
  durationMs : ℝ

/-- `GameStatus` -/
inductive GameStatus where
  | ready
  | running
  | paused
  | gameover
deriving DecidableEq

/-- The `GameState` world snapshot. -/
structure GameState where
  status : GameStatus
  width : ℝ
  height : ℝ
  startedAtMs : ℝ
  nowMs : ℝ
  lives : ℤ
  score : ℤ
  level : ℕ
  ship : Ship
  bullets : List Bullet
  asteroids : List Asteroid
  explosions : List Explosion
  lastFrameMs : ℝ

/-- `InputState`; `rotateDir` is `-1 | 0 | 1` in the source, modelled as ℤ. -/
structure InputState where
  isThrusting : Bool
  rotateDir : ℤ
  isFiring : Bool
  isHyperspace : Bool

/-- `StepResult` -/
structure StepResult where
  next : GameState
  didShipExplode : Bool
  didLevelAdvance : Bool

end

/-! ## game.ts -/

noncomputable section

/-- ship collision radius -/
def SHIP_RADIUS : ℝ := 14
/-- rad/s -/
def SHIP_TURN_RATE : ℝ := 4.6
/-- px/s^2 -/
def SHIP_THRUST : ℝ := 520
/-- per-frame multiplicative velocity decay -/
def SHIP_FRICTION : ℝ := 0.985
/-- speed clamp -/
def SHIP_MAX_SPEED : ℝ := 560

/-- muzzle speed -/
def BULLET_SPEED : ℝ := 820
/-- bullet collision radius -/
def BULLET_RADIUS : ℝ := 2.5
/-- fire cooldown -/
def BULLET_COOLDOWN_MS : ℝ := 180
/-- bullet lifetime -/
def BULLET_LIFETIME_MS : ℝ := 900

/-- base asteroid speed -/
def ASTEROID_BASE_SPEED : ℝ := 70
/-- large-tier radius -/
def ASTEROID_LARGE_RADIUS : ℝ := 52
/-- medium-tier radius -/
def ASTEROID_MED_RADIUS : ℝ := 32
/-- small-tier radius -/
def ASTEROID_SMALL_RADIUS : ℝ := 18

/-- invincibility window after respawn or level advance -/
def SHIP_INVINCIBLE_MS : ℝ := 1400

/-- score for destroying a large asteroid -/
def SCORE_LARGE : ℤ := 20
/-- score for destroying a medium asteroid -/
def SCORE_MED : ℤ := 50
/-- score for destroying a small asteroid -/
def SCORE_SMALL : ℤ := 100

/-- initial lives -/
def DEFAULT_LIVES : ℤ := 3

/-- `integrateShip` from `game.ts`: turn, optionally thrust, apply friction,
clamp speed, advance and wrap the position.  Invincibility and firing timers
are kept unchanged. -/
def integrateShip (ship : Ship) (input : InputState) (dt : ℝ) (game : GameState) : Ship :=
  let angle := wrapAngle (ship.angle + (input.rotateDir : ℝ) * SHIP_TURN_RATE * dt)
  let vel0 :=
    if input.isThrusting then add ship.vel (mul (fromAngle angle) (SHIP_THRUST * dt))
    else ship.vel
  let vel1 := mul vel0 SHIP_FRICTION
  let speed := Real.sqrt (vel1.x ^ 2 + vel1.y ^ 2)
  let vel2 := if SHIP_MAX_SPEED < speed then mul vel1 (SHIP_MAX_SPEED / speed) else vel1
  let pos := wrapPosition (add ship.pos (mul vel2 dt)) game.width game.height
  { ship with angle := angle, vel := vel2, pos := pos }

/-- `integrateBullets`: drop expired bullets, advance and wrap the rest. -/
def integrateBullets (bullets : List Bullet) (dt : ℝ) (game : GameState) (nowMs : ℝ) :
    List Bullet :=
  (bullets.filter fun b => decide (nowMs - b.bornAtMs < BULLET_LIFETIME_MS)).map fun b =>
    { b with pos := wrapPosition (add b.pos (mul b.vel dt)) game.width game.height }

/-- `integrateAsteroids`: advance and wrap position, advance and wrap rotation. -/
def integrateAsteroids (asteroids : List Asteroid) (dt : ℝ) (game : GameState) :
    List Asteroid :=
  asteroids.map fun a =>
    { a with
      pos := wrapPosition (add a.pos (mul a.vel dt)) game.width game.height
      angle := wrapAngle (a.angle + a.spin * dt) }

/-- `createFreshShip`: centred, at rest, nose up unless `keepAngle` is given,
invincible for `SHIP_INVINCIBLE_MS`, allowed to fire immediately. -/
def createFreshShip (width height nowMs : ℝ) (keepAngle : Option ℝ) : Ship :=
  { pos := ⟨width / 2, height / 2⟩
    vel := ⟨0, 0⟩
    angle := keepAngle.getD (-(Real.pi / 2))
    radius := SHIP_RADIUS
    invincibleUntilMs := nowMs + SHIP_INVINCIBLE_MS
    canFireAtMs := nowMs }

/-- `sizeToRadius`: the three discrete radii. -/
def sizeToRadius (size : ℕ) : ℝ :=
  if size = 3 then ASTEROID_LARGE_RADIUS
  else if size = 2 then ASTEROID_MED_RADIUS
  else ASTEROID_SMALL_RADIUS

/-- The 12 sequential `randBetween(rng, 0.72, 1.18)` draws building an
asteroid silhouette (`Array.from({length: vertexCount}, ...)`). -/
def drawShape : ℕ → ℕ → List ℝ × ℕ
  | t, 0 => ([], t)
  | t, n + 1 =>
    let q := draw t
    let rest := drawShape q.2 n
    (randBetween q.1 0.72 1.18 :: rest.1, rest.2)

/-- `createAsteroid` from `game.ts`, with the generator state threaded in the
source's evaluation order: position (only when `atPos` is absent), speed,
direction, the 12 silhouette factors, then id, angle and spin. -/
def createAsteroid (t : ℕ) (width height : ℝ) (size : ℕ) (atPos : Option Vec2) :
    Asteroid × ℕ :=
  let radius := sizeToRadius size
  let posDraw : Vec2 × ℕ :=
    match atPos with
    | some p => (p, t)
    | none =>
      let qx := draw t
      let qy := draw qx.2
      (⟨qx.1 * width, qy.1 * height⟩, qy.2)
  let pos := posDraw.1
  let base := ASTEROID_BASE_SPEED + (3 - (size : ℝ)) * 28
  let qs := draw posDraw.2
  let speed := randBetween qs.1 (base * 0.75) (base * 1.4)
  let qd := draw qs.2
  let dir := fromAngle (randBetween qd.1 0 TAU)
  let vel := mul dir speed
  let sh := drawShape qd.2 12
  let aid := idDraw sh.2
  let qa := draw aid.2
  let qsp := draw qa.2
  ({ id := aid.1
     pos := pos
     vel := vel
     angle := randBetween qa.1 0 TAU
     spin := randBetween qsp.1 (-1.4) 1.4
     radius := radius
     size := size
     shape := sh.1 }, qsp.2)

/-- `jitter(pos, rng, amount)` -/
def jitter (pos : Vec2) (amount : ℝ) (t : ℕ) : Vec2 × ℕ :=
  let (qx, t1) := draw t
  let (qy, t2) := draw t1
  (⟨pos.x + randBetween qx (-amount) amount, pos.y + randBetween qy (-amount) amount⟩, t2)

/-- `nudgeVelocity(a, parentVel, rng)`: parent velocity plus own velocity plus
a random kick. -/
def nudgeVelocity (a : Asteroid) (parentVel : Vec2) (t : ℕ) : Asteroid × ℕ :=
  let (q1, t1) := draw t
  let (q2, t2) := draw t1
  let kick := mul (fromAngle (randBetween q1 0 TAU)) (randBetween q2 30 120)
  ({ a with vel := add parentVel (add a.vel kick) }, t2)

/-- Result of `splitAsteroid`: offspring and score value. -/
structure SplitResult where
  spawned : List Asteroid
  score : ℤ

/-- `splitAsteroid` from `game.ts`: large (3) → two medium offspring at
jittered positions and `SCORE_LARGE`; medium (2) → two small offspring and
`SCORE_MED`; otherwise no offspring and `SCORE_SMALL`.  Draw order follows
the source: first element's jitter then its `createAsteroid`, second
likewise, then the two `nudgeVelocity` calls of the `.map`. -/
def splitAsteroid (a : Asteroid) (t : ℕ) : SplitResult × ℕ :=
  if a.size = 3 then
    let (p1, t1) := jitter a.pos 16 t
    let (c1, t2) := createAsteroid t1 1 1 2 (some p1)
    let (p2, t3) := jitter a.pos 16 t2
    let (c2, t4) := createAsteroid t3 1 1 2 (some p2)
    let (d1, t5) := nudgeVelocity c1 a.vel t4
    let (d2, t6) := nudgeVelocity c2 a.vel t5
    (⟨[d1, d2], SCORE_LARGE⟩, t6)
  else if a.size = 2 then
    let (p1, t1) := jitter a.pos 10 t
    let (c1, t2) := createAsteroid t1 1 1 1 (some p1)
    let (p2, t3) := jitter a.pos 10 t2
    let (c2, t4) := createAsteroid t3 1 1 1 (some p2)
    let (d1, t5) := nudgeVelocity c1 a.vel t4
    let (d2, t6) := nudgeVelocity c2 a.vel t5
    (⟨[d1, d2], SCORE_MED⟩, t6)
  else (⟨[], SCORE_SMALL⟩, t)

/-- The retry loop of `spawnAsteroids`: keep creating large asteroids until
`remaining` of them lie at distance ≥ 180 from `avoid`; a rejected attempt
(`dist < 180`) still consumes its draws.  The source's `for` loop with
`i -= 1; continue` has no termination bound, so the model carries explicit
`fuel` and yields `none` when the fuel is exhausted. -/
def spawnLoop (width height : ℝ) (avoid : Vec2) :
    ℕ → ℕ → ℕ → Option (List Asteroid × ℕ)
  | 0, _, t => some ([], t)
  | _ + 1, 0, _ => none
  | remaining + 1, fuel + 1, t =>
    let c := createAsteroid t width height 3 none
    if dist c.1.pos avoid < 180 then
      spawnLoop width height avoid (remaining + 1) fuel c.2
    else
      match spawnLoop width height avoid remaining fuel c.2 with
      | none => none
      | some (l, t2) => some (c.1 :: l, t2)
  termination_by _remaining fuel _t => fuel

/-- `spawnAsteroids`: a wave of `min(4 + Math.floor(level * 0.75), 12)` large
asteroids kept away from `avoid`. -/
def spawnAsteroids (width height : ℝ) (level : ℕ) (avoid : Vec2) (fuel t : ℕ) :
    Option (List Asteroid × ℕ) :=
  spawnLoop width height avoid (min (4 + 3 * level / 4) 12) fuel t

/-- `createInitialState` (with the seed given explicitly; the source's
`opts.seed ?? (nowMs ^ (width << 16) ^ height)` default is not modelled).
Fuelled because it spawns the initial wave. -/
def createInitialState (width height nowMs : ℝ) (seed : ℤ) (fuel : ℕ) :
    Option GameState :=
  let t := toUint32 seed
  let ship := createFreshShip width height nowMs none
  match spawnAsteroids width height 1 ship.pos fuel t with
  | none => none
  | some (wave, _) =>
    some { status := GameStatus.ready
           width := width
           height := height
           startedAtMs := nowMs
           nowMs := nowMs
           lives := DEFAULT_LIVES
           score := 0
           level := 1
           ship := ship
           bullets := []
           asteroids := wave
           explosions := []
           lastFrameMs := nowMs }

/-- Accumulator of the bullet/asteroid collision double loop in `step`:
the mutable `hitAsteroids` and `spentBullets` sets (as id lists), the running
`score`, the `spawnedAsteroids` array, the growing `explosions` array and the
generator state. -/
structure HitAcc where
  hitIds : List ℕ
  spentIds : List ℕ
  score : ℤ
  spawned : List Asteroid
  explosions : List Explosion
  t : ℕ

/-- The `for (const b of bullets) for (const a of asteroids)` collision scan
of `step`: an asteroid already hit is skipped; on a hit the asteroid is
marked, the bullet marked spent, the split applied, the score increased and
an explosion effect appended.  A bullet marked spent keeps being tested
against later asteroids, exactly as in the source. -/
def processHits (nowMs : ℝ) (asteroids : List Asteroid) (bullets : List Bullet)
    (acc0 : HitAcc) : HitAcc :=
  bullets.foldl (fun accB b =>
    asteroids.foldl (fun acc a =>
      if a.id ∈ acc.hitIds then acc
      else if dist b.pos a.pos ≤ b.radius + a.radius then
        let sp := splitAsteroid a acc.t
        let ei := idDraw sp.2
        { hitIds := acc.hitIds ++ [a.id]
          spentIds := acc.spentIds ++ [b.id]
          score := acc.score + sp.1.score
          spawned := acc.spawned ++ sp.1.spawned
          explosions := acc.explosions ++ [⟨ei.1, a.pos, nowMs, 320⟩]
          t := ei.2 }
      else acc) accB) acc0

/-- The hyperspace block of `step`: if requested and the ship is not
currently invincible, teleport to a uniformly random viewport position,
keep the velocity and grant a 520 ms invincibility window. -/
def applyHyperspace (ship0 : Ship) (input : InputState) (nowMs width height : ℝ)
    (t : ℕ) : Ship × ℕ :=
  if input.isHyperspace ∧ ship0.invincibleUntilMs ≤ nowMs then
    let (qx, t1) := draw t
    let (qy, t2) := draw t1
    ({ ship0 with
       pos := ⟨qx * width, qy * height⟩
       invincibleUntilMs := nowMs + 520 }, t2)
  else (ship0, t)

/-- The firing block of `step`: if requested and the cooldown has elapsed,
append one bullet at the ship's nose with the ship's velocity plus the
muzzle speed along the heading, and reset the cooldown. -/
def applyFiring (ship1 : Ship) (input : InputState) (nowMs : ℝ)
    (bullets0 : List Bullet) (t : ℕ) : Ship × List Bullet × ℕ :=
  if input.isFiring ∧ ship1.canFireAtMs ≤ nowMs then
    let dir := fromAngle ship1.angle
    let muzzle := add ship1.pos (mul dir (ship1.radius + 8))
    let bi := idDraw t
    (({ ship1 with canFireAtMs := nowMs + BULLET_COOLDOWN_MS } : Ship),
     bullets0 ++ [⟨bi.1, muzzle, add ship1.vel (mul dir BULLET_SPEED), BULLET_RADIUS, nowMs⟩],
     bi.2)
  else (ship1, bullets0, t)

/-- The tail of a running `step` frame after the bullet/asteroid collision
scan: apply the collision results, run the ship/asteroid collision with its
early returns, then the level-advance check.  `ship2` is the ship after
integration/hyperspace/firing, `bullets1` the bullets including a newly
fired one, `asteroids0` the integrated asteroids and `acc` the collision
scan result. -/
def stepRest (prev : GameState) (nowMs : ℝ) (fuel : ℕ) (ship2 : Ship)
    (bullets1 : List Bullet) (asteroids0 : List Asteroid) (acc : HitAcc) :
    Option StepResult :=
  let bullets2 := bullets1.filter fun b => decide (b.id ∉ acc.spentIds)
  let asteroids1 := (asteroids0.filter fun a => decide (a.id ∉ acc.hitIds)) ++ acc.spawned
  let firstHit :=
    if nowMs < ship2.invincibleUntilMs then none
    else asteroids1.find? fun a => decide (dist ship2.pos a.pos ≤ ship2.radius + a.radius)
  match firstHit with
  | some _ =>
    let ei := idDraw acc.t
    let explosions1 := acc.explosions ++ [⟨ei.1, ship2.pos, nowMs, 520⟩]
    let lives := prev.lives - 1
    if lives ≤ 0 then
      some ⟨{ prev with
              status := GameStatus.gameover
              nowMs := nowMs
              lastFrameMs := nowMs
              lives := 0
              score := acc.score
              bullets := []
              ship := ship2
              asteroids := asteroids1
              explosions := explosions1 }, true, false⟩
    else
      some ⟨{ prev with
              nowMs := nowMs
              lastFrameMs := nowMs
              lives := lives
              score := acc.score
              ship := createFreshShip prev.width prev.height nowMs (some ship2.angle)
              bullets := []
              asteroids := asteroids1
              explosions := explosions1 }, true, false⟩
  | none =>
    if asteroids1.length = 0 then
      match spawnAsteroids prev.width prev.height (prev.level + 1) ship2.pos fuel acc.t with
      | none => none
      | some (wave, _) =>
        some ⟨{ prev with
                nowMs := nowMs
                lastFrameMs := nowMs
                ship := { ship2 with invincibleUntilMs := nowMs + SHIP_INVINCIBLE_MS }
                bullets := bullets2
                asteroids := wave
                explosions := acc.explosions
                score := acc.score
                level := prev.level + 1 }, false, true⟩
    else
      some ⟨{ prev with
              nowMs := nowMs
              lastFrameMs := nowMs
              ship := ship2
              bullets := bullets2
              asteroids := asteroids1
              explosions := acc.explosions
              score := acc.score
              level := prev.level }, false, false⟩

/-- The per-frame transition `step(prev, input, nowMs, seed)` of `game.ts`.
A fresh generator is created from `seed`; when the status is not `running`
only the timestamps are refreshed.  Otherwise: integrate ship, bullets,
asteroids, prune effects; hyperspace; firing; bullet/asteroid collisions;
ship/asteroid collision (skipped while invincible, early return on hit);
level advance when no asteroids remain.  `fuel` bounds the spawn retry loop
of a level advance (the only source of `none`). -/
def step (prev : GameState) (input : InputState) (nowMs : ℝ) (seed : ℤ) (fuel : ℕ) :
    Option StepResult :=
  let t := toUint32 seed
  if prev.status = GameStatus.running then
    let dtMs := clamp (nowMs - prev.lastFrameMs) 0 50
    let dt := dtMs / 1000
    let ship0 := integrateShip prev.ship input dt prev
    let bullets0 := integrateBullets prev.bullets dt prev nowMs
    let asteroids0 := integrateAsteroids prev.asteroids dt prev
    let explosions0 := prev.explosions.filter fun e => decide (nowMs - e.bornAtMs < e.durationMs)
    let hsp := applyHyperspace ship0 input nowMs prev.width prev.height t
    let fire := applyFiring hsp.1 input nowMs bullets0 hsp.2
    let acc := processHits nowMs asteroids0 fire.2.1
      { hitIds := []
        spentIds := []
        score := prev.score
        spawned := []
        explosions := explosions0
        t := fire.2.2 }
    stepRest prev nowMs fuel fire.1 fire.2.1 asteroids0 acc
  else
    some ⟨{ prev with nowMs := nowMs, lastFrameMs := nowMs }, false, false⟩

end

/-! ## Demonstration values used by witnesses -/

noncomputable section

/-- A ship at rest used by concrete witnesses. -/
def demoShip : Ship :=
  { pos := ⟨1, 2⟩, vel := ⟨0, 0⟩, angle := 0, radius := 14
    invincibleUntilMs := 0, canFireAtMs := 0 }

/-- A `ready` snapshot used by concrete witnesses. -/
def demoReady : GameState :=
  { status := GameStatus.ready, width := 800, height := 600
    startedAtMs := 0, nowMs := 0, lives := 3, score := 0, level := 1
    ship := demoShip, bullets := [], asteroids := [], explosions := []
    lastFrameMs := 0 }

/-- The all-false input flags. -/
def demoInput : InputState :=
  { isThrusting := false, rotateDir := 0, isFiring := false, isHyperspace := false }

/-- A large asteroid used by concrete witnesses. -/
def demoAst3 : Asteroid :=
  { id := 0, pos := ⟨100, 100⟩, vel := ⟨0, 0⟩, angle := 0, spin := 0
    radius := 52, size := 3, shape := [] }

end

/-! ## Claims -/

/-- **C1.** For every pair of equal inputs (previous snapshot, input flags,
timestamp, frame seed — and the model's spawn fuel), two calls to `step`
return bit-identical results: `step` is a pure function reading no state
besides its arguments, all randomness coming from the per-frame seed. -/
theorem step_deterministic (p1 p2 : GameState) (i1 i2 : InputState)
    (n1 n2 : ℝ) (s1 s2 : ℤ) (fuel : ℕ)
    (hp : p1 = p2) (hi : i1 = i2) (hn : n1 = n2) (hs : s1 = s2) :
    step p1 i1 n1 s1 fuel = step p2 i2 n2 s2 fuel := by
  subst hp; subst hi; subst hn; subst hs; rfl

/-- Witness for C1 at a concrete call. -/
theorem step_deterministic_witness :
    step demoReady demoInput 5 0 9 = step demoReady demoInput 5 0 9 :=
  step_deterministic demoReady demoReady demoInput demoInput 5 5 0 0 9
    rfl rfl rfl rfl

/-- **C6.** On a snapshot whose status is not `running` (ready, paused or
gameover), `step` returns the snapshot with only `nowMs` and `lastFrameMs`
replaced — every other field, including all entity collections, is the
previous one — and both event flags are `false`. -/
theorem step_non_running (prev : GameState) (input : InputState) (nowMs : ℝ)
    (seed : ℤ) (fuel : ℕ) (h : prev.status ≠ GameStatus.running) :
    step prev input nowMs seed fuel =
      some ⟨{ prev with nowMs := nowMs, lastFrameMs := nowMs }, false, false⟩ := by
  unfold step
  rw [if_neg h]

/-- Witness for C6: a concrete `ready` snapshot. -/
theorem step_non_running_witness :
    step demoReady demoInput 5 0 9 =
      some ⟨{ demoReady with nowMs := 5, lastFrameMs := 5 }, false, false⟩ :=
  step_non_running demoReady demoInput 5 0 9 (by decide)

/-- Every Mulberry32 output scramble is a 32-bit value. -/
theorem mulberry32_lt (t : ℕ) : mulberry32 t < 4294967296 := by
  have key : ∀ x y : ℕ, x < 4294967296 → y < 4294967296 → Nat.xor x y < 4294967296 := by
    intro x y hx hy
    have h32 : (4294967296 : ℕ) = 2 ^ 32 := by norm_num
    rw [h32] at hx hy ⊢
    exact Nat.xor_lt_two_pow hx hy
  have hsr : ∀ x k : ℕ, x >>> k ≤ x := by
    intro x k
    rw [Nat.shiftRight_eq_div_pow]
    exact Nat.div_le_self _ _
  simp only [mulberry32]
  refine key _ _ (key _ _ (Nat.mod_lt _ (by norm_num)) (Nat.mod_lt _ (by norm_num))) ?_
  exact lt_of_le_of_lt (hsr _ _)
    (key _ _ (Nat.mod_lt _ (by norm_num)) (Nat.mod_lt _ (by norm_num)))

/-- **C8.** Every output of the generator created from a seed is a 32-bit
unsigned integer divided by 2^32, hence lies in the half-open interval
[0,1); and two generators created from the same seed produce identical
output sequences draw for draw. -/
theorem createRng_outputs (s1 s2 : ℤ) (n : ℕ) (h : s1 = s2) :
    rngSeqU s1 n < 4294967296 ∧
    rngSeqQ s1 n = (rngSeqU s1 n : ℚ) / 4294967296 ∧
    0 ≤ rngSeqQ s1 n ∧ rngSeqQ s1 n < 1 ∧
    rngSeqU s1 n = rngSeqU s2 n ∧ rngSeqQ s1 n = rngSeqQ s2 n := by
  refine ⟨mulberry32_lt _, rfl, ?_, ?_, by rw [h], by rw [h]⟩
  · unfold rngSeqQ rngFloat
    positivity
  · unfold rngSeqQ rngFloat rngSeqU
    rw [div_lt_one (by norm_num)]
    exact_mod_cast mulberry32_lt (toUint32 s1 + (n + 1) * MB32C)

/-- Witness for C8 at seed 42, draw 0. -/
theorem createRng_outputs_witness :
    rngSeqU 42 0 < 4294967296 ∧
    rngSeqQ 42 0 = (rngSeqU 42 0 : ℚ) / 4294967296 ∧
    0 ≤ rngSeqQ 42 0 ∧ rngSeqQ 42 0 < 1 ∧
    rngSeqU 42 0 = rngSeqU 42 0 ∧ rngSeqQ 42 0 = rngSeqQ 42 0 :=
  createRng_outputs 42 42 0 rfl

/-- **C10.** `createRng` reduces its seed modulo 2^32 before use (`seed >>> 0`
is modelled by `toUint32`), so seeds congruent modulo 2^32 — in particular a
negative seed and its two's-complement unsigned value — yield generators with
identical output sequences. -/
theorem createRng_seed_mod (s1 s2 : ℤ) (h : s1 % 4294967296 = s2 % 4294967296) (n : ℕ) :
    toUint32 s1 = toUint32 s2 ∧ rngSeqU s1 n = rngSeqU s2 n ∧
    rngSeqQ s1 n = rngSeqQ s2 n := by
  have ht : toUint32 s1 = toUint32 s2 := by
    unfold toUint32
    rw [h]
  refine ⟨ht, ?_, ?_⟩
  · unfold rngSeqU
    rw [ht]
  · unfold rngSeqQ rngSeqU
    rw [ht]

/-- Witness for C10: the seed -1 and its `ToUint32` image 4294967295 give the
same generator. -/
theorem createRng_seed_mod_witness :
    toUint32 (-1) = toUint32 4294967295 ∧ rngSeqU (-1) 0 = rngSeqU 4294967295 0 ∧
    rngSeqQ (-1) 0 = rngSeqQ 4294967295 0 :=
  createRng_seed_mod (-1) 4294967295 (by decide) 0

/-- **C3.** Split policy of `splitAsteroid`: a large asteroid (size 3) yields
exactly two medium offspring (size 2) and score value 20; a medium one yields
exactly two small offspring (size 1) and 50; a small one yields no offspring
and 100.  `step` adds exactly this score value to the running score on a hit. -/
theorem splitAsteroid_policy (a : Asteroid) (t : ℕ) :
    (a.size = 3 → (splitAsteroid a t).1.spawned.length = 2 ∧
      (∀ c ∈ (splitAsteroid a t).1.spawned, c.size = 2) ∧
      (splitAsteroid a t).1.score = 20) ∧
    (a.size = 2 → (splitAsteroid a t).1.spawned.length = 2 ∧
      (∀ c ∈ (splitAsteroid a t).1.spawned, c.size = 1) ∧
      (splitAsteroid a t).1.score = 50) ∧
    (a.size = 1 → (splitAsteroid a t).1.spawned = [] ∧
      (splitAsteroid a t).1.score = 100) := by
  refine ⟨fun h => ?_, fun h => ?_, fun h => ?_⟩
  · simp [splitAsteroid, h, jitter, createAsteroid, nudgeVelocity, draw, idDraw,
      SCORE_LARGE]
  · simp [splitAsteroid, h, jitter, createAsteroid, nudgeVelocity, draw, idDraw,
      SCORE_MED]
  · simp [splitAsteroid, h, SCORE_SMALL]

/-- Witness for C3: a concrete large asteroid splits into two size-2
offspring worth 20 points. -/
theorem splitAsteroid_policy_witness :
    demoAst3.size = 3 ∧
    (splitAsteroid demoAst3 0).1.spawned.length = 2 ∧
    (∀ c ∈ (splitAsteroid demoAst3 0).1.spawned, c.size = 2) ∧
    (splitAsteroid demoAst3 0).1.score = 20 :=
  ⟨rfl, (splitAsteroid_policy demoAst3 0).1 rfl⟩

/-- The ship integration step keeps the invincibility timer unchanged. -/
theorem integrateShip_invincibleUntilMs (ship : Ship) (input : InputState)
    (dt : ℝ) (game : GameState) :
    (integrateShip ship input dt game).invincibleUntilMs = ship.invincibleUntilMs := by
  simp [integrateShip]

/-- Lives accounting of the frame tail: `lives` never increases (under the
run invariant `0 ≤ lives`) and a collision with one life left gives
`gameover`. -/
theorem stepRest_lives (prev : GameState) (nowMs : ℝ) (fuel : ℕ) (ship2 : Ship)
    (bullets1 : List Bullet) (asteroids0 : List Asteroid) (acc : HitAcc)
    (r : StepResult)
    (h : stepRest prev nowMs fuel ship2 bullets1 asteroids0 acc = some r) :
    (0 ≤ prev.lives → r.next.lives ≤ prev.lives) ∧
    (prev.lives = 1 → r.didShipExplode = true → r.next.status = GameStatus.gameover) := by
  simp only [stepRest] at h
  split at h
  · split at h
    · injection h with h
      subst h
      refine ⟨fun hl => hl, fun _ _ => rfl⟩
    · injection h with h
      subst h
      refine ⟨fun hl => ?_, fun h1 _ => ?_⟩
      · simp only []
        omega
      · exfalso
        omega
  · split at h
    · split at h
      · exact absurd h (by simp)
      · injection h with h
        subst h
        exact ⟨fun hl => le_refl _, fun _ he => absurd he (by simp)⟩
    · injection h with h
      subst h
      exact ⟨fun hl => le_refl _, fun _ he => absurd he (by simp)⟩

/-- **C4.** For every snapshot satisfying the run invariant `0 ≤ lives`,
`step` never increases `lives`; and on any call where a ship/asteroid
collision fires with one life remaining, the returned snapshot has status
`gameover` on that same call. -/
theorem step_lives (prev : GameState) (input : InputState) (nowMs : ℝ)
    (seed : ℤ) (fuel : ℕ) (r : StepResult)
    (h : step prev input nowMs seed fuel = some r) :
    (0 ≤ prev.lives → r.next.lives ≤ prev.lives) ∧
    (prev.lives = 1 → r.didShipExplode = true → r.next.status = GameStatus.gameover) := by
  simp only [step] at h
  split at h
  · exact stepRest_lives _ _ _ _ _ _ _ _ h
  · injection h with h
    subst h
    exact ⟨fun hl => le_refl _, fun _ he => absurd he (by simp)⟩

/-- The result of `step` on the demonstration `ready` snapshot. -/
noncomputable def demoReadyStepped : StepResult :=
  ⟨{ demoReady with nowMs := 5, lastFrameMs := 5 }, false, false⟩

/-- Witness for C4 at a concrete call. -/
theorem step_lives_witness :
    (0 ≤ demoReady.lives → demoReadyStepped.next.lives ≤ demoReady.lives) ∧
    (demoReady.lives = 1 → demoReadyStepped.didShipExplode = true →
      demoReadyStepped.next.status = GameStatus.gameover) :=
  step_lives demoReady demoInput 5 0 9 demoReadyStepped rfl

/-- A ship that is still invincible is not teleported by hyperspace. -/
theorem applyHyperspace_of_invincible (ship0 : Ship) (input : InputState)
    (nowMs width height : ℝ) (t : ℕ) (hx : nowMs < ship0.invincibleUntilMs) :
    applyHyperspace ship0 input nowMs width height t = (ship0, t) := by
  unfold applyHyperspace
  rw [if_neg]
  rintro ⟨_, hle⟩
  exact absurd hx (not_lt.2 hle)

/-- Firing never changes the invincibility timer. -/
theorem applyFiring_invincibleUntilMs (ship1 : Ship) (input : InputState)
    (nowMs : ℝ) (bullets0 : List Bullet) (t : ℕ) :
    (applyFiring ship1 input nowMs bullets0 t).1.invincibleUntilMs =
      ship1.invincibleUntilMs := by
  unfold applyFiring
  split <;> rfl

/-- The frame tail with a still-invincible ship: the ship/asteroid collision
scan is skipped entirely, so no life is lost, no explosion is reported and
the status is unchanged. -/
theorem stepRest_invincible (prev : GameState) (nowMs : ℝ) (fuel : ℕ)
    (ship2 : Ship) (bullets1 : List Bullet) (asteroids0 : List Asteroid)
    (acc : HitAcc) (r : StepResult) (hS : nowMs < ship2.invincibleUntilMs)
    (h : stepRest prev nowMs fuel ship2 bullets1 asteroids0 acc = some r) :
    r.didShipExplode = false ∧ r.next.lives = prev.lives ∧
    r.next.status = prev.status := by
  simp only [stepRest, if_pos hS] at h
  split at h
  · split at h
    · exact absurd h (by simp)
    · injection h with h
      subst h
      exact ⟨rfl, rfl, rfl⟩
  · injection h with h
    subst h
    exact ⟨rfl, rfl, rfl⟩

/-- **C7.** If the craft is invincible (`now_ms` before its invincible-until
timestamp, a timer preserved by integration and firing and only strengthened
by hyperspace), the ship/asteroid collision phase of `step` does not fire
regardless of geometric overlap: `lives` is unchanged, `didShipExplode` is
`false` and no `gameover` transition occurs. -/
theorem step_invincibility (prev : GameState) (input : InputState) (nowMs : ℝ)
    (seed : ℤ) (fuel : ℕ) (r : StepResult)
    (hrun : prev.status = GameStatus.running)
    (hinv : nowMs < prev.ship.invincibleUntilMs)
    (h : step prev input nowMs seed fuel = some r) :
    r.didShipExplode = false ∧ r.next.lives = prev.lives ∧
    r.next.status = GameStatus.running := by
  simp only [step, if_pos hrun] at h
  have h0 : nowMs < (integrateShip prev.ship input
      (clamp (nowMs - prev.lastFrameMs) 0 50 / 1000) prev).invincibleUntilMs := by
    rw [integrateShip_invincibleUntilMs]
    exact hinv
  rw [applyHyperspace_of_invincible _ _ _ _ _ _ h0] at h
  obtain ⟨h1, h2, h3⟩ := stepRest_invincible _ _ _ _ _ _ _ _
    (by rw [applyFiring_invincibleUntilMs]; exact h0) h
  exact ⟨h1, h2, h3.trans hrun⟩

/-! ## Evaluation lemmas for concrete frames -/

/-- `TAU` is positive. -/
theorem TAU_pos : 0 < TAU := by
  unfold TAU
  positivity

/-- The JavaScript angle normalisation fixes 0. -/
theorem wrapAngle_zero : wrapAngle 0 = 0 := by
  have h1 : jsMod 0 TAU = 0 := by
    simp [jsMod, jsTrunc]
  unfold wrapAngle
  rw [h1, zero_add]
  unfold jsMod jsTrunc
  rw [div_self (ne_of_gt TAU_pos)]
  norm_num

/-- Wrapping is the identity on positions already inside the viewport. -/
theorem wrapPosition_of_mem (p : Vec2) (w h : ℝ) (h1 : 0 ≤ p.x) (h2 : p.x < w)
    (h3 : 0 ≤ p.y) (h4 : p.y < h) : wrapPosition p w h = p := by
  simp only [wrapPosition]
  rw [if_neg (not_lt.2 h1), if_neg (not_le.2 h2), if_neg (not_lt.2 h3),
    if_neg (not_le.2 h4)]

/-- A ship at rest with heading 0 and in-viewport position is unchanged by
integration when neither turning nor thrusting. -/
theorem integrateShip_calm (s : Ship) (input : InputState) (dt : ℝ) (g : GameState)
    (ht : input.isThrusting = false) (hr : input.rotateDir = 0)
    (hv : s.vel = ⟨0, 0⟩) (ha : s.angle = 0)
    (h1 : 0 ≤ s.pos.x) (h2 : s.pos.x < g.width)
    (h3 : 0 ≤ s.pos.y) (h4 : s.pos.y < g.height) :
    integrateShip s input dt g = s := by
  unfold integrateShip
  simp only [ht, hr, ha, hv, Int.cast_zero, zero_mul, add_zero, mul]
  rw [wrapAngle_zero]
  simp only [Bool.false_eq_true, if_false, zero_mul]
  have hs : Real.sqrt ((0:ℝ) ^ 2 + (0:ℝ) ^ 2) = 0 := by
    norm_num
  rw [hs, if_neg (by norm_num [SHIP_MAX_SPEED])]
  simp only [add, zero_mul, add_zero]
  have hp : (⟨s.pos.x, s.pos.y⟩ : Vec2) = s.pos := rfl
  rw [hp, wrapPosition_of_mem s.pos g.width g.height h1 h2 h3 h4, ← hv, ← ha]

/-- An asteroid at rest with spin 0, angle 0 and in-viewport position is
unchanged by integration. -/
theorem integrateAsteroid_calm (a : Asteroid) (dt : ℝ) (g : GameState)
    (hv : a.vel = ⟨0, 0⟩) (ha : a.angle = 0) (hsp : a.spin = 0)
    (h1 : 0 ≤ a.pos.x) (h2 : a.pos.x < g.width)
    (h3 : 0 ≤ a.pos.y) (h4 : a.pos.y < g.height) :
    integrateAsteroids [a] dt g = [a] := by
  unfold integrateAsteroids
  simp only [List.map, hv, ha, hsp, mul, add, zero_mul, add_zero]
  rw [wrapAngle_zero]
  have hp : (⟨a.pos.x, a.pos.y⟩ : Vec2) = a.pos := rfl
  rw [hp, wrapPosition_of_mem a.pos g.width g.height h1 h2 h3 h4, ← hv]
  nth_rewrite 1 [← ha]
  rw [← hsp]

/-- Hyperspace is a no-op when not requested. -/
theorem applyHyperspace_not_requested (ship0 : Ship) (input : InputState)
    (nowMs width height : ℝ) (t : ℕ) (hx : input.isHyperspace = false) :
    applyHyperspace ship0 input nowMs width height t = (ship0, t) := by
  unfold applyHyperspace
  rw [if_neg]
  rintro ⟨hh, _⟩
  rw [hx] at hh
  exact Bool.false_ne_true hh

/-- Firing is a no-op when not requested. -/
theorem applyFiring_not_requested (ship1 : Ship) (input : InputState)
    (nowMs : ℝ) (bullets0 : List Bullet) (t : ℕ) (hx : input.isFiring = false) :
    applyFiring ship1 input nowMs bullets0 t = (ship1, bullets0, t) := by
  unfold applyFiring
  rw [if_neg]
  rintro ⟨hh, _⟩
  rw [hx] at hh
  exact Bool.false_ne_true hh

/-- The collision scan is the identity when there are no bullets. -/
theorem processHits_nil_bullets (nowMs : ℝ) (asteroids : List Asteroid)
    (acc : HitAcc) : processHits nowMs asteroids [] acc = acc := rfl

/-- The collision scan is the identity when there are no asteroids. -/
theorem processHits_nil_asteroids (nowMs : ℝ) (bullets : List Bullet)
    (acc : HitAcc) : processHits nowMs [] bullets acc = acc := by
  unfold processHits
  induction bullets generalizing acc with
  | nil => rfl
  | cons b bs ih => simp [ih acc]

/-- An invincible demonstration ship (timer 100 ms in the future). -/
noncomputable def demoShipInv : Ship :=
  { pos := ⟨400, 300⟩, vel := ⟨0, 0⟩, angle := 0, radius := 14
    invincibleUntilMs := 100, canFireAtMs := 0 }

/-- A large asteroid directly on top of the demonstration ship. -/
noncomputable def demoAstOverlap : Asteroid :=
  { id := 1, pos := ⟨400, 300⟩, vel := ⟨0, 0⟩, angle := 0, spin := 0
    radius := 52, size := 3, shape := [] }

/-- A running snapshot whose invincible ship overlaps an asteroid. -/
noncomputable def demo7 : GameState :=
  { status := GameStatus.running, width := 800, height := 600
    startedAtMs := 0, nowMs := 0, lives := 3, score := 0, level := 1
    ship := demoShipInv, bullets := [], asteroids := [demoAstOverlap]
    explosions := [], lastFrameMs := 5 }

/-- The result of `step` on `demo7`: only the timestamps move. -/
noncomputable def demo7r : StepResult :=
  ⟨{ demo7 with nowMs := 5, lastFrameMs := 5 }, false, false⟩

/-- Concrete evaluation of the frame on `demo7`. -/
theorem demo7_step : step demo7 demoInput 5 0 9 = some demo7r := by
  have hship : integrateShip demo7.ship demoInput
      (clamp (5 - demo7.lastFrameMs) 0 50 / 1000) demo7 = demo7.ship :=
    integrateShip_calm _ _ _ _ rfl rfl rfl rfl (by norm_num [demo7, demoShipInv])
      (by norm_num [demo7, demoShipInv]) (by norm_num [demo7, demoShipInv])
      (by norm_num [demo7, demoShipInv])
  have hast : integrateAsteroids demo7.asteroids
      (clamp (5 - demo7.lastFrameMs) 0 50 / 1000) demo7 = demo7.asteroids :=
    integrateAsteroid_calm demoAstOverlap _ demo7 rfl rfl rfl
      (by norm_num [demoAstOverlap, demo7]) (by norm_num [demoAstOverlap, demo7])
      (by norm_num [demoAstOverlap, demo7]) (by norm_num [demoAstOverlap, demo7])
  simp only [step, hship, hast]
  rw [if_pos (show demo7.status = GameStatus.running from rfl)]
  rw [applyHyperspace_not_requested _ _ _ _ _ _ rfl]
  rw [applyFiring_not_requested _ _ _ _ _ rfl]
  simp only [stepRest]
  rw [if_pos (show (5:ℝ) < demo7.ship.invincibleUntilMs from by
    norm_num [demo7, demoShipInv])]
  rfl

/-- Witness for C7: the frame on `demo7` skips the overlapping asteroid. -/
theorem step_invincibility_witness :
    demo7r.didShipExplode = false ∧ demo7r.next.lives = demo7.lives ∧
    demo7r.next.status = GameStatus.running :=
  step_invincibility demo7 demoInput 5 0 9 demo7r rfl
    (by norm_num [demo7, demoShipInv]) demo7_step

/-- The wrap invariant of the spec: a position inside `[0,w) × [0,h)`. -/
def inViewport (p : Vec2) (w h : ℝ) : Prop :=
  0 ≤ p.x ∧ p.x < w ∧ 0 ≤ p.y ∧ p.y < h

/-- The single-step-wrap precondition: the displaced position stays within
one viewport extent of the viewport on each axis. -/
def singleWrapOk (p v : Vec2) (dt w h : ℝ) : Prop :=
  -w ≤ p.x + v.x * dt ∧ p.x + v.x * dt < 2 * w ∧
  -h ≤ p.y + v.y * dt ∧ p.y + v.y * dt < 2 * h

/-- `wrapPosition` lands inside the viewport whenever its input is within one
extent of the viewport on each axis. -/
theorem wrapPosition_mem (p : Vec2) (w h : ℝ)
    (h1 : -w ≤ p.x) (h2 : p.x < 2 * w) (h3 : -h ≤ p.y) (h4 : p.y < 2 * h) :
    inViewport (wrapPosition p w h) w h := by
  simp only [inViewport, wrapPosition]
  split_ifs <;>
    exact ⟨by linarith, by linarith, by linarith, by linarith⟩

/-- The speed clamp of `integrateShip` bounds each velocity component by
`SHIP_MAX_SPEED`. -/
theorem clampSpeed_bound (v : Vec2) :
    |(if SHIP_MAX_SPEED < Real.sqrt (v.x ^ 2 + v.y ^ 2) then
        mul v (SHIP_MAX_SPEED / Real.sqrt (v.x ^ 2 + v.y ^ 2)) else v).x| ≤
      SHIP_MAX_SPEED ∧
    |(if SHIP_MAX_SPEED < Real.sqrt (v.x ^ 2 + v.y ^ 2) then
        mul v (SHIP_MAX_SPEED / Real.sqrt (v.x ^ 2 + v.y ^ 2)) else v).y| ≤
      SHIP_MAX_SPEED := by
  have hxs : |v.x| ≤ Real.sqrt (v.x ^ 2 + v.y ^ 2) := by
    rw [← Real.sqrt_sq_eq_abs]
    exact Real.sqrt_le_sqrt (by nlinarith [sq_nonneg v.y])
  have hys : |v.y| ≤ Real.sqrt (v.x ^ 2 + v.y ^ 2) := by
    rw [← Real.sqrt_sq_eq_abs]
    exact Real.sqrt_le_sqrt (by nlinarith [sq_nonneg v.x])
  have hM : (0:ℝ) < SHIP_MAX_SPEED := by norm_num [SHIP_MAX_SPEED]
  split_ifs with hs
  · have hspos : 0 < Real.sqrt (v.x ^ 2 + v.y ^ 2) := lt_trans hM hs
    constructor
    · simp only [mul, abs_mul]
      rw [abs_of_pos (div_pos hM hspos)]
      calc |v.x| * (SHIP_MAX_SPEED / Real.sqrt (v.x ^ 2 + v.y ^ 2))
          ≤ Real.sqrt (v.x ^ 2 + v.y ^ 2) * (SHIP_MAX_SPEED / Real.sqrt (v.x ^ 2 + v.y ^ 2)) :=
            mul_le_mul_of_nonneg_right hxs (le_of_lt (div_pos hM hspos))
        _ = SHIP_MAX_SPEED := by
            field_simp
    · simp only [mul, abs_mul]
      rw [abs_of_pos (div_pos hM hspos)]
      calc |v.y| * (SHIP_MAX_SPEED / Real.sqrt (v.x ^ 2 + v.y ^ 2))
          ≤ Real.sqrt (v.x ^ 2 + v.y ^ 2) * (SHIP_MAX_SPEED / Real.sqrt (v.x ^ 2 + v.y ^ 2)) :=
            mul_le_mul_of_nonneg_right hys (le_of_lt (div_pos hM hspos))
        _ = SHIP_MAX_SPEED := by
            field_simp
  · push_neg at hs
    exact ⟨le_trans hxs hs, le_trans hys hs⟩

/-- A displaced position whose velocity components are bounded by the ship
speed limit wraps into the viewport when one frame of travel fits in each
extent. -/
theorem pos_wrap_of_bounded (p v : Vec2) (dt w h : ℝ) (hdt : 0 ≤ dt)
    (hw : SHIP_MAX_SPEED * dt ≤ w) (hh : SHIP_MAX_SPEED * dt ≤ h)
    (hx : |v.x| ≤ SHIP_MAX_SPEED) (hy : |v.y| ≤ SHIP_MAX_SPEED)
    (hp : inViewport p w h) :
    inViewport (wrapPosition (add p (mul v dt)) w h) w h := by
  obtain ⟨p1, p2, p3, p4⟩ := hp
  rw [abs_le] at hx hy
  have l1 := mul_le_mul_of_nonneg_right hx.1 hdt
  have l2 := mul_le_mul_of_nonneg_right hx.2 hdt
  have l3 := mul_le_mul_of_nonneg_right hy.1 hdt
  have l4 := mul_le_mul_of_nonneg_right hy.2 hdt
  apply wrapPosition_mem <;> simp only [add, mul] <;> nlinarith

/-- **C2 (amended).** After the integration phase of a running frame, every
integrated entity lies inside `[0,width) × [0,height)`: the craft whenever
its previous position was in the viewport and one frame of clamped ship
speed fits in each extent, and each surviving projectile and obstacle
whenever its displaced position satisfies the single-step-wrap precondition.
Entities newly created later in the frame (fired projectiles at the craft's
nose, split offspring at jittered positions) are not wrapped and may lie
outside the viewport until their next integration; the original claim fails
for them. -/
theorem step_wrap_amended (g : GameState) (input : InputState) (dt nowMs : ℝ)
    (hdt : 0 ≤ dt)
    (hsw : SHIP_MAX_SPEED * dt ≤ g.width) (hsh : SHIP_MAX_SPEED * dt ≤ g.height)
    (hp : inViewport g.ship.pos g.width g.height)
    (hb : ∀ b ∈ g.bullets, singleWrapOk b.pos b.vel dt g.width g.height)
    (ha : ∀ a ∈ g.asteroids, singleWrapOk a.pos a.vel dt g.width g.height) :
    inViewport (integrateShip g.ship input dt g).pos g.width g.height ∧
    (∀ b ∈ integrateBullets g.bullets dt g nowMs,
      inViewport b.pos g.width g.height) ∧
    (∀ a ∈ integrateAsteroids g.asteroids dt g,
      inViewport a.pos g.width g.height) := by
  refine ⟨?_, ?_, ?_⟩
  · unfold integrateShip
    exact pos_wrap_of_bounded _ _ _ _ _ hdt hsw hsh
      (clampSpeed_bound _).1 (clampSpeed_bound _).2 hp
  · intro b' hb'
    unfold integrateBullets at hb'
    rw [List.mem_map] at hb'
    obtain ⟨b, hbmem, rfl⟩ := hb'
    obtain ⟨k1, k2, k3, k4⟩ := hb b (List.mem_of_mem_filter hbmem)
    exact wrapPosition_mem _ _ _ k1 k2 k3 k4
  · intro a' ha'
    unfold integrateAsteroids at ha'
    rw [List.mem_map] at ha'
    obtain ⟨a, hamem, rfl⟩ := ha'
    obtain ⟨k1, k2, k3, k4⟩ := ha a hamem
    exact wrapPosition_mem _ _ _ k1 k2 k3 k4

/-- Witness for the amended C2 on a concrete snapshot. -/
theorem step_wrap_amended_witness :
    inViewport (integrateShip demo7.ship demoInput 0 demo7).pos
      demo7.width demo7.height ∧
    (∀ b ∈ integrateBullets demo7.bullets 0 demo7 5,
      inViewport b.pos demo7.width demo7.height) ∧
    (∀ a ∈ integrateAsteroids demo7.asteroids 0 demo7,
      inViewport a.pos demo7.width demo7.height) :=
  step_wrap_amended demo7 demoInput 0 5 le_rfl
    (by norm_num [SHIP_MAX_SPEED, demo7])
    (by norm_num [SHIP_MAX_SPEED, demo7])
    (by norm_num [inViewport, demo7, demoShipInv])
    (by intro b hmem; simp [demo7] at hmem)
    (by
      intro a hmem
      simp only [demo7] at hmem
      rw [List.mem_singleton] at hmem
      subst hmem
      norm_num [singleWrapOk, demoAstOverlap, demo7])

/-- A ship one pixel from the right edge, invincible, ready to fire. -/
noncomputable def cexShip : Ship :=
  { pos := ⟨799, 300⟩, vel := ⟨0, 0⟩, angle := 0, radius := 14
    invincibleUntilMs := 5000, canFireAtMs := 0 }

/-- A far-away large asteroid. -/
noncomputable def cexAst : Asteroid :=
  { id := 1, pos := ⟨100, 100⟩, vel := ⟨0, 0⟩, angle := 0, spin := 0
    radius := 52, size := 3, shape := [] }

/-- Input with only the fire flag set. -/
def cexInput : InputState :=
  { isThrusting := false, rotateDir := 0, isFiring := true, isHyperspace := false }

/-- A running snapshot about to fire with the ship's nose past the edge. -/
noncomputable def cex2 : GameState :=
  { status := GameStatus.running, width := 800, height := 600
    startedAtMs := 0, nowMs := 0, lives := 3, score := 0, level := 1
    ship := cexShip, bullets := [], asteroids := [cexAst]
    explosions := [], lastFrameMs := 1000 }

/-- The bullet fired at the nose of `cexShip`: its x is 799 + (14 + 8) = 821,
outside the 800-wide viewport, because `step` never wraps the muzzle
position. -/
noncomputable def cexBullet : Bullet :=
  { id := (idDraw (toUint32 0)).1, pos := ⟨821, 300⟩, vel := ⟨820, 0⟩
    radius := BULLET_RADIUS, bornAtMs := 1000 }

/-- The ship after firing: only the cooldown timestamp moves. -/
noncomputable def cexShipAfter : Ship :=
  { cexShip with canFireAtMs := 1000 + BULLET_COOLDOWN_MS }

/-- The frame result on `cex2`. -/
noncomputable def cex2r : StepResult :=
  ⟨{ cex2 with
     nowMs := 1000
     lastFrameMs := 1000
     ship := cexShipAfter
     bullets := [cexBullet] }, false, false⟩

/-- The fired bullet misses the far asteroid. -/
theorem cex2_no_hit :
    ¬ (dist cexBullet.pos cexAst.pos ≤ cexBullet.radius + cexAst.radius) := by
  unfold dist cexBullet cexAst BULLET_RADIUS
  rw [not_le]
  simp only []
  have h : ((2.5:ℝ) + 52) ^ 2 < ((821:ℝ) - 100) ^ 2 + ((300:ℝ) - 100) ^ 2 := by
    norm_num
  exact (Real.lt_sqrt (by norm_num)).2 h

/-- Concrete evaluation of the frame on `cex2`. -/
theorem cex2_step : step cex2 cexInput 1000 0 9 = some cex2r := by
  have hship : integrateShip cex2.ship cexInput
      (clamp (1000 - cex2.lastFrameMs) 0 50 / 1000) cex2 = cex2.ship :=
    integrateShip_calm _ _ _ _ rfl rfl rfl rfl (by norm_num [cex2, cexShip])
      (by norm_num [cex2, cexShip]) (by norm_num [cex2, cexShip])
      (by norm_num [cex2, cexShip])
  have hast : integrateAsteroids cex2.asteroids
      (clamp (1000 - cex2.lastFrameMs) 0 50 / 1000) cex2 = cex2.asteroids :=
    integrateAsteroid_calm cexAst _ cex2 rfl rfl rfl
      (by norm_num [cexAst, cex2]) (by norm_num [cexAst, cex2])
      (by norm_num [cexAst, cex2]) (by norm_num [cexAst, cex2])
  have hbul : integrateBullets cex2.bullets
      (clamp (1000 - cex2.lastFrameMs) 0 50 / 1000) cex2 1000 = [] := rfl
  have hhyp : applyHyperspace cex2.ship cexInput 1000 cex2.width cex2.height
      (toUint32 0) = (cex2.ship, toUint32 0) :=
    applyHyperspace_not_requested _ _ _ _ _ _ rfl
  have hfire : applyFiring cex2.ship cexInput 1000 [] (toUint32 0) =
      (cexShipAfter, [cexBullet], toUint32 0 + MB32C) := by
    unfold applyFiring
    rw [if_pos ⟨rfl, by norm_num [cex2, cexShip]⟩]
    simp only [fromAngle, Real.cos_zero, Real.sin_zero, idDraw]
    norm_num [cex2, cexShip, cexShipAfter, cexBullet, add, mul,
      BULLET_SPEED, idDraw]
  have hph : ∀ acc : HitAcc, processHits 1000 cex2.asteroids [cexBullet] acc = acc := by
    intro acc
    unfold processHits
    show (if cexAst.id ∈ acc.hitIds then acc
      else if dist cexBullet.pos cexAst.pos ≤ cexBullet.radius + cexAst.radius
      then _ else acc) = acc
    split
    · rfl
    · rw [if_neg cex2_no_hit]
  simp only [step, hship, hast, hbul, hhyp, hfire, hph]
  rw [if_pos (show cex2.status = GameStatus.running from rfl)]
  simp only [stepRest]
  rw [if_pos (show (1000:ℝ) < cexShipAfter.invincibleUntilMs from by
    norm_num [cexShipAfter, cexShip])]
  rfl

/-- **C2 (counterexample).** The claimed wrap invariant is false for entities
created during the frame: at this concrete running snapshot and input the
snapshot returned by `step` contains a freshly fired projectile whose
`pos.x = 821` is not below the viewport width 800. -/
theorem wrap_invariant_counterexample :
    cex2.status = GameStatus.running ∧
    step cex2 cexInput 1000 0 9 = some cex2r ∧
    cexBullet ∈ cex2r.next.bullets ∧ cex2.width ≤ cexBullet.pos.x := by
  refine ⟨rfl, cex2_step, ?_, by norm_num [cex2, cexBullet]⟩
  simp [cex2r]

/-- The generator state after one silhouette of `n` draws. -/
theorem drawShape_snd (n : ℕ) : ∀ t : ℕ, (drawShape t n).2 = t + n * MB32C := by
  induction n with
  | zero => intro t; simp [drawShape]
  | succ m ih =>
    intro t
    simp only [drawShape, draw, ih]
    ring

/-- The position of a freshly placed asteroid: the first two draws scaled by
the viewport extents. -/
theorem createAsteroid_none_pos (t : ℕ) (w h : ℝ) (s : ℕ) :
    (createAsteroid t w h s none).1.pos =
      ⟨((rngFloat (mulberry32 (t + MB32C)) : ℚ) : ℝ) * w,
       ((rngFloat (mulberry32 (t + MB32C + MB32C)) : ℚ) : ℝ) * h⟩ := by
  simp [createAsteroid, draw]

/-- A freshly placed asteroid consumes exactly 19 draws. -/
theorem createAsteroid_none_snd (t : ℕ) (w h : ℝ) (s : ℕ) :
    (createAsteroid t w h s none).2 = t + 19 * MB32C := by
  simp only [createAsteroid, draw, idDraw, drawShape_snd]
  ring

/-- `createAsteroid` stores the requested size tier. -/
theorem createAsteroid_size (t : ℕ) (w h : ℝ) (s : ℕ) (atPos : Option Vec2) :
    (createAsteroid t w h s atPos).1.size = s := by
  cases atPos <;> simp [createAsteroid]

/-- Specification of the spawn retry loop: on success it returns exactly
`remaining` asteroids, all large and all at distance at least 180 from the
avoided point. -/
theorem spawnLoop_spec (width height : ℝ) (avoid : Vec2) :
    ∀ (fuel remaining t : ℕ) (l : List Asteroid) (t2 : ℕ),
      spawnLoop width height avoid remaining fuel t = some (l, t2) →
      l.length = remaining ∧ ∀ a ∈ l, a.size = 3 ∧ 180 ≤ dist a.pos avoid := by
  intro fuel
  induction fuel with
  | zero =>
    intro remaining t l t2 h
    cases remaining with
    | zero =>
      simp only [spawnLoop] at h
      injection h with h
      rw [Prod.mk.injEq] at h
      obtain ⟨hl, _⟩ := h
      subst hl
      exact ⟨rfl, by simp⟩
    | succ r =>
      simp only [spawnLoop] at h
      exact Option.noConfusion h
  | succ f ih =>
    intro remaining t l t2 h
    cases remaining with
    | zero =>
      simp only [spawnLoop] at h
      injection h with h
      rw [Prod.mk.injEq] at h
      obtain ⟨hl, _⟩ := h
      subst hl
      exact ⟨rfl, by simp⟩
    | succ r =>
      simp only [spawnLoop] at h
      split at h
      · exact ih (r + 1) _ l t2 h
      · rename_i hcond
        split at h
        · exact absurd h (by simp)
        · rename_i l2 t3 heq
          injection h with h
          rw [Prod.mk.injEq] at h
          obtain ⟨hl, _⟩ := h
          subst hl
          obtain ⟨hlen, hmem⟩ := ih r _ l2 t3 heq
          refine ⟨by simp [hlen], ?_⟩
          intro a ha
          rcases List.mem_cons.1 ha with rfl | hmem2
          · exact ⟨createAsteroid_size _ _ _ _ _, not_lt.1 hcond⟩
          · exact hmem a hmem2

/-- One accepted iteration of the spawn retry loop. -/
theorem spawnLoop_unfold_far (width height : ℝ) (avoid : Vec2) (r f t : ℕ)
    (l : List Asteroid) (t2 : ℕ)
    (hfar : ¬ (dist (createAsteroid t width height 3 none).1.pos avoid < 180))
    (hrec : spawnLoop width height avoid r f
      (createAsteroid t width height 3 none).2 = some (l, t2)) :
    spawnLoop width height avoid (r + 1) (f + 1) t =
      some ((createAsteroid t width height 3 none).1 :: l, t2) := by
  simp only [spawnLoop]
  rw [if_neg hfar, hrec]

/-- Level-advance behaviour of the frame tail whenever the asteroid list is
empty after applying the collision results (surviving asteroids plus split
offspring): with no asteroid left no craft collision can fire, the level is
incremented, a fresh wave is spawned away from the craft and the craft gets
a new invincibility window. -/
theorem stepRest_levelAdvance (prev : GameState) (nowMs : ℝ) (fuel : ℕ)
    (ship2 : Ship) (bullets1 : List Bullet) (asteroids0 : List Asteroid)
    (acc : HitAcc) (r : StepResult)
    (hempty : (asteroids0.filter fun a => decide (a.id ∉ acc.hitIds)) ++
      acc.spawned = [])
    (h : stepRest prev nowMs fuel ship2 bullets1 asteroids0 acc = some r) :
    r.didLevelAdvance = true ∧ r.next.level = prev.level + 1 ∧
    r.next.ship.invincibleUntilMs = nowMs + SHIP_INVINCIBLE_MS ∧
    r.next.asteroids.length = min (4 + 3 * (prev.level + 1) / 4) 12 ∧
    ∀ a ∈ r.next.asteroids, a.size = 3 ∧ 180 ≤ dist a.pos r.next.ship.pos := by
  simp only [stepRest] at h
  rw [hempty] at h
  simp only [List.find?_nil, ite_self, List.length_nil, eq_self_iff_true,
    if_true] at h
  split at h
  · exact Option.noConfusion h
  · rename_i wave t3 heq
    injection h with h
    subst h
    unfold spawnAsteroids at heq
    obtain ⟨hlen, hmem⟩ := spawnLoop_spec prev.width prev.height ship2.pos
      fuel _ acc.t wave t3 heq
    exact ⟨rfl, rfl, rfl, hlen, hmem⟩

/-- **C5.** On a running snapshot whose obstacle field is empty after
collision resolution (here: already empty on entry, so no craft collision
can occur), a completing `step` advances the level by exactly 1, reports
`didLevelAdvance`, grants the craft a fresh invincibility window, and spawns
exactly `min(4 + ⌊level × 0.75⌋, 12)` large asteroids — the count computed
from the incremented level — each at distance at least 180 from the craft. -/
theorem step_levelAdvance (prev : GameState) (input : InputState) (nowMs : ℝ)
    (seed : ℤ) (fuel : ℕ)
    (hrun : prev.status = GameStatus.running) (hempty : prev.asteroids = [])
    (hsome : (step prev input nowMs seed fuel).isSome = true) :
    ((step prev input nowMs seed fuel).map fun r =>
      (r.didLevelAdvance, r.next.level, r.next.ship.invincibleUntilMs,
       r.next.asteroids.length)) =
      some (true, prev.level + 1, nowMs + SHIP_INVINCIBLE_MS,
        min (4 + 3 * (prev.level + 1) / 4) 12) ∧
    ∀ r ∈ step prev input nowMs seed fuel, ∀ a ∈ r.next.asteroids,
      a.size = 3 ∧ 180 ≤ dist a.pos r.next.ship.pos := by
  obtain ⟨r, hr⟩ := Option.isSome_iff_exists.1 hsome
  have h' := hr
  simp only [step] at h'
  rw [if_pos hrun, hempty] at h'
  rw [show integrateAsteroids [] (clamp (nowMs - prev.lastFrameMs) 0 50 / 1000)
    prev = [] from rfl] at h'
  rw [processHits_nil_asteroids] at h'
  obtain ⟨c1, c2, c3, c4, c5⟩ := stepRest_levelAdvance _ _ _ _ _ _ _ _ (by simp) h'
  constructor
  · rw [hr]
    simp [c1, c2, c3, c4]
  · intro r' hr'
    rw [hr, Option.mem_some_iff] at hr'
    subst hr'
    exact c5

/-- A demonstration ship at the origin, at rest, not invincible. -/
noncomputable def demoShip5 : Ship :=
  { pos := ⟨0, 0⟩, vel := ⟨0, 0⟩, angle := 0, radius := 14
    invincibleUntilMs := 0, canFireAtMs := 0 }

/-- A running snapshot with no asteroids left, about to advance the level. -/
noncomputable def demo5 : GameState :=
  { status := GameStatus.running, width := 10000, height := 10000
    startedAtMs := 0, nowMs := 0, lives := 3, score := 0, level := 1
    ship := demoShip5, bullets := [], asteroids := [], explosions := []
    lastFrameMs := 1000 }

/-- The wave spawned by seed 7 on the 10000 × 10000 viewport. -/
noncomputable def demo5wave : List Asteroid :=
  [(createAsteroid 7 10000 10000 3 none).1,
   (createAsteroid 34799750454 10000 10000 3 none).1,
   (createAsteroid 69599500901 10000 10000 3 none).1,
   (createAsteroid 104399251348 10000 10000 3 none).1,
   (createAsteroid 139199001795 10000 10000 3 none).1]

/-- The spawn loop for seed 7 accepts all five attempts. -/
theorem demo5_spawn :
    spawnLoop 10000 10000 ⟨0, 0⟩ 5 99 7 = some (demo5wave, 173998752242) := by
  have key : ∀ t u1 u2 : ℕ, t + MB32C = u1 → t + MB32C + MB32C = u2 →
      (32400 : ℝ) ≤
        (((rngFloat (mulberry32 u1) : ℚ) : ℝ) * 10000 - 0) ^ 2 +
        (((rngFloat (mulberry32 u2) : ℚ) : ℝ) * 10000 - 0) ^ 2 →
      ¬ (dist (createAsteroid t 10000 10000 3 none).1.pos ⟨0, 0⟩ < 180) := by
    intro t u1 u2 h1 h2 hge
    rw [createAsteroid_none_pos, h2, h1, not_lt]
    unfold dist
    apply Real.le_sqrt_of_sq_le
    norm_num at hge ⊢
    exact hge
  have hd0 := key 7 1831565820 3663131633 (by norm_num [MB32C]) (by norm_num [MB32C])
    (by rw [show mulberry32 1831565820 = 50271532 from by decide,
          show mulberry32 3663131633 = 266108690 from by decide]
        unfold rngFloat
        push_cast
        norm_num)
  have hd1 := key 34799750454 36631316267 38462882080
    (by norm_num [MB32C]) (by norm_num [MB32C])
    (by rw [show mulberry32 36631316267 = 4200246536 from by decide,
          show mulberry32 38462882080 = 1063148692 from by decide]
        unfold rngFloat
        push_cast
        norm_num)
  have hd2 := key 69599500901 71431066714 73262632527
    (by norm_num [MB32C]) (by norm_num [MB32C])
    (by rw [show mulberry32 71431066714 = 751368223 from by decide,
          show mulberry32 73262632527 = 1533221781 from by decide]
        unfold rngFloat
        push_cast
        norm_num)
  have hd3 := key 104399251348 106230817161 108062382974
    (by norm_num [MB32C]) (by norm_num [MB32C])
    (by rw [show mulberry32 106230817161 = 2715315895 from by decide,
          show mulberry32 108062382974 = 1446420126 from by decide]
        unfold rngFloat
        push_cast
        norm_num)
  have hd4 := key 139199001795 141030567608 142862133421
    (by norm_num [MB32C]) (by norm_num [MB32C])
    (by rw [show mulberry32 141030567608 = 3515507998 from by decide,
          show mulberry32 142862133421 = 24481064 from by decide]
        unfold rngFloat
        push_cast
        norm_num)
  have L0 : spawnLoop 10000 10000 ⟨0, 0⟩ 0 94 173998752242 =
      some ([], 173998752242) := by
    simp only [spawnLoop]
  have L1 : spawnLoop 10000 10000 ⟨0, 0⟩ 1 95 139199001795 =
      some ([(createAsteroid 139199001795 10000 10000 3 none).1],
        173998752242) :=
    spawnLoop_unfold_far _ _ _ 0 94 _ _ _ hd4 (by
      rw [createAsteroid_none_snd,
        show (139199001795 + 19 * MB32C : ℕ) = 173998752242 from by
          norm_num [MB32C]]
      exact L0)
  have L2 : spawnLoop 10000 10000 ⟨0, 0⟩ 2 96 104399251348 =
      some ([(createAsteroid 104399251348 10000 10000 3 none).1,
        (createAsteroid 139199001795 10000 10000 3 none).1], 173998752242) :=
    spawnLoop_unfold_far _ _ _ 1 95 _ _ _ hd3 (by
      rw [createAsteroid_none_snd,
        show (104399251348 + 19 * MB32C : ℕ) = 139199001795 from by
          norm_num [MB32C]]
      exact L1)
  have L3 : spawnLoop 10000 10000 ⟨0, 0⟩ 3 97 69599500901 =
      some ([(createAsteroid 69599500901 10000 10000 3 none).1,
        (createAsteroid 104399251348 10000 10000 3 none).1,
        (createAsteroid 139199001795 10000 10000 3 none).1], 173998752242) :=
    spawnLoop_unfold_far _ _ _ 2 96 _ _ _ hd2 (by
      rw [createAsteroid_none_snd,
        show (69599500901 + 19 * MB32C : ℕ) = 104399251348 from by
          norm_num [MB32C]]
      exact L2)
  have L4 : spawnLoop 10000 10000 ⟨0, 0⟩ 4 98 34799750454 =
      some ([(createAsteroid 34799750454 10000 10000 3 none).1,
        (createAsteroid 69599500901 10000 10000 3 none).1,
        (createAsteroid 104399251348 10000 10000 3 none).1,
        (createAsteroid 139199001795 10000 10000 3 none).1], 173998752242) :=
    spawnLoop_unfold_far _ _ _ 3 97 _ _ _ hd1 (by
      rw [createAsteroid_none_snd,
        show (34799750454 + 19 * MB32C : ℕ) = 69599500901 from by
          norm_num [MB32C]]
      exact L3)
  exact spawnLoop_unfold_far _ _ _ 4 98 _ _ _ hd0 (by
    rw [createAsteroid_none_snd,
      show (7 + 19 * MB32C : ℕ) = 34799750454 from by norm_num [MB32C]]
    exact L4)

/-- The frame on `demo5` completes (its spawn loop succeeds). -/
theorem demo5_isSome : (step demo5 demoInput 1000 7 99).isSome = true := by
  have hship : integrateShip demo5.ship demoInput
      (clamp (1000 - demo5.lastFrameMs) 0 50 / 1000) demo5 = demo5.ship :=
    integrateShip_calm _ _ _ _ rfl rfl rfl rfl (by norm_num [demo5, demoShip5])
      (by norm_num [demo5, demoShip5]) (by norm_num [demo5, demoShip5])
      (by norm_num [demo5, demoShip5])
  have hsa : spawnAsteroids demo5.width demo5.height (demo5.level + 1)
      demo5.ship.pos 99 (toUint32 7) = some (demo5wave, 173998752242) := by
    show spawnAsteroids 10000 10000 2 ⟨0, 0⟩ 99 (toUint32 7) = _
    unfold spawnAsteroids
    rw [show min (4 + 3 * 2 / 4) 12 = 5 from by norm_num,
      show toUint32 7 = 7 from by decide]
    exact demo5_spawn
  simp only [step]
  rw [if_pos (show demo5.status = GameStatus.running from rfl), hship]
  rw [applyHyperspace_not_requested _ _ _ _ _ _ rfl]
  rw [applyFiring_not_requested _ _ _ _ _ rfl]
  rw [show integrateAsteroids demo5.asteroids
    (clamp (1000 - demo5.lastFrameMs) 0 50 / 1000) demo5 = [] from rfl]
  rw [processHits_nil_asteroids]
  simp only [stepRest, List.filter_nil, List.append_nil, List.find?_nil,
    ite_self, List.length_nil, eq_self_iff_true, if_true, hsa]
  rfl

/-- Witness for C5: an empty-field running frame with seed 7 advances to
level 2 and spawns a wave of 5 large asteroids away from the craft. -/
theorem step_levelAdvance_witness :
    ((step demo5 demoInput 1000 7 99).map fun r =>
      (r.didLevelAdvance, r.next.level, r.next.ship.invincibleUntilMs,
       r.next.asteroids.length)) =
      some (true, demo5.level + 1, 1000 + SHIP_INVINCIBLE_MS,
        min (4 + 3 * (demo5.level + 1) / 4) 12) ∧
    ∀ r ∈ step demo5 demoInput 1000 7 99, ∀ a ∈ r.next.asteroids,
      a.size = 3 ∧ 180 ≤ dist a.pos r.next.ship.pos :=
  step_levelAdvance demo5 demoInput 1000 7 99 rfl rfl demo5_isSome

/-- The id of a freshly placed asteroid is the 17th draw scaled to `[0,1e9)`. -/
theorem createAsteroid_none_id (t : ℕ) (w h : ℝ) (s : ℕ) :
    (createAsteroid t w h s none).1.id =
      mulberry32 (t + 17 * MB32C) * 1000000000 / 4294967296 := by
  simp only [createAsteroid, idDraw, draw, drawShape_snd]
  ring_nf

/-- **C9 (amended).** Entity identifiers are generated from the frame's RNG
stream — each is `⌊draw × 1e9⌋`, hence below `1e9` — with no deduplication,
so uniqueness among live entities of a collection is not guaranteed. -/
theorem id_generation (t : ℕ) :
    (idDraw t).1 = mulberry32 (t + MB32C) * 1000000000 / 4294967296 ∧
    (idDraw t).1 < 1000000000 := by
  refine ⟨rfl, ?_⟩
  unfold idDraw
  have h := mulberry32_lt (t + MB32C)
  rw [Nat.div_lt_iff_lt_mul (by norm_num)]
  omega

/-- The initial wave spawned by seed 167622246 on a 100000 × 100000
viewport. -/
noncomputable def c9wave : List Asteroid :=
  [(createAsteroid 167622246 100000 100000 3 none).1,
   (createAsteroid 34967372693 100000 100000 3 none).1,
   (createAsteroid 69767123140 100000 100000 3 none).1,
   (createAsteroid 104566873587 100000 100000 3 none).1]

/-- The snapshot built by `createInitialState` for seed 167622246. -/
noncomputable def c9state : GameState :=
  { status := GameStatus.ready, width := 100000, height := 100000
    startedAtMs := 0, nowMs := 0, lives := DEFAULT_LIVES, score := 0, level := 1
    ship := createFreshShip 100000 100000 0 none, bullets := []
    asteroids := c9wave, explosions := [], lastFrameMs := 0 }

/-- The spawn loop for seed 167622246 accepts all four attempts. -/
theorem c9_spawn :
    spawnLoop 100000 100000 ⟨100000 / 2, 100000 / 2⟩ 4 99 167622246 =
      some (c9wave, 139366624034) := by
  have key : ∀ t u1 u2 : ℕ, t + MB32C = u1 → t + MB32C + MB32C = u2 →
      (32400 : ℝ) ≤
        (((rngFloat (mulberry32 u1) : ℚ) : ℝ) * 100000 - 100000 / 2) ^ 2 +
        (((rngFloat (mulberry32 u2) : ℚ) : ℝ) * 100000 - 100000 / 2) ^ 2 →
      ¬ (dist (createAsteroid t 100000 100000 3 none).1.pos
          ⟨100000 / 2, 100000 / 2⟩ < 180) := by
    intro t u1 u2 h1 h2 hge
    rw [createAsteroid_none_pos, h2, h1, not_lt]
    unfold dist
    apply Real.le_sqrt_of_sq_le
    norm_num at hge ⊢
    exact hge
  have hd0 := key 167622246 1999188059 3830753872
    (by norm_num [MB32C]) (by norm_num [MB32C])
    (by rw [show mulberry32 1999188059 = 1804501861 from by decide,
          show mulberry32 3830753872 = 3661087726 from by decide]
        unfold rngFloat
        push_cast
        norm_num)
  have hd1 := key 34967372693 36798938506 38630504319
    (by norm_num [MB32C]) (by norm_num [MB32C])
    (by rw [show mulberry32 36798938506 = 355200030 from by decide,
          show mulberry32 38630504319 = 2699320674 from by decide]
        unfold rngFloat
        push_cast
        norm_num)
  have hd2 := key 69767123140 71598688953 73430254766
    (by norm_num [MB32C]) (by norm_num [MB32C])
    (by rw [show mulberry32 71598688953 = 1907788437 from by decide,
          show mulberry32 73430254766 = 939744717 from by decide]
        unfold rngFloat
        push_cast
        norm_num)
  have hd3 := key 104566873587 106398439400 108230005213
    (by norm_num [MB32C]) (by norm_num [MB32C])
    (by rw [show mulberry32 106398439400 = 590331443 from by decide,
          show mulberry32 108230005213 = 3697192029 from by decide]
        unfold rngFloat
        push_cast
        norm_num)
  have L0 : spawnLoop 100000 100000 ⟨100000 / 2, 100000 / 2⟩ 0 95 139366624034 =
      some ([], 139366624034) := by
    simp only [spawnLoop]
  have L1 : spawnLoop 100000 100000 ⟨100000 / 2, 100000 / 2⟩ 1 96 104566873587 =
      some ([(createAsteroid 104566873587 100000 100000 3 none).1],
        139366624034) :=
    spawnLoop_unfold_far _ _ _ 0 95 _ _ _ hd3 (by
      rw [createAsteroid_none_snd,
        show (104566873587 + 19 * MB32C : ℕ) = 139366624034 from by
          norm_num [MB32C]]
      exact L0)
  have L2 : spawnLoop 100000 100000 ⟨100000 / 2, 100000 / 2⟩ 2 97 69767123140 =
      some ([(createAsteroid 69767123140 100000 100000 3 none).1,
        (createAsteroid 104566873587 100000 100000 3 none).1], 139366624034) :=
    spawnLoop_unfold_far _ _ _ 1 96 _ _ _ hd2 (by
      rw [createAsteroid_none_snd,
        show (69767123140 + 19 * MB32C : ℕ) = 104566873587 from by
          norm_num [MB32C]]
      exact L1)
  have L3 : spawnLoop 100000 100000 ⟨100000 / 2, 100000 / 2⟩ 3 98 34967372693 =
      some ([(createAsteroid 34967372693 100000 100000 3 none).1,
        (createAsteroid 69767123140 100000 100000 3 none).1,
        (createAsteroid 104566873587 100000 100000 3 none).1], 139366624034) :=
    spawnLoop_unfold_far _ _ _ 2 97 _ _ _ hd1 (by
      rw [createAsteroid_none_snd,
        show (34967372693 + 19 * MB32C : ℕ) = 69767123140 from by
          norm_num [MB32C]]
      exact L2)
  exact spawnLoop_unfold_far _ _ _ 3 98 _ _ _ hd0 (by
    rw [createAsteroid_none_snd,
      show (167622246 + 19 * MB32C : ℕ) = 34967372693 from by norm_num [MB32C]]
    exact L3)

/-- Concrete evaluation of `createInitialState` at seed 167622246. -/
theorem c9_create :
    createInitialState 100000 100000 0 167622246 99 = some c9state := by
  have hsa : spawnAsteroids 100000 100000 1
      (createFreshShip 100000 100000 0 none).pos 99 (toUint32 167622246) =
      some (c9wave, 139366624034) := by
    show spawnAsteroids 100000 100000 1 ⟨100000 / 2, 100000 / 2⟩ 99
      (toUint32 167622246) = _
    unfold spawnAsteroids
    rw [show min (4 + 3 * 1 / 4) 12 = 4 from by norm_num,
      show toUint32 167622246 = 167622246 from by decide]
    exact c9_spawn
  simp only [createInitialState]
  rw [hsa]
  rfl

/-- The four ids of the wave: the third and fourth coincide. -/
theorem c9_ids : (c9wave.map fun a => a.id) =
    [754564639, 232505577, 231699845, 231699845] := by
  simp only [c9wave, List.map_cons, List.map_nil, createAsteroid_none_id]
  decide

/-- **C9 (counterexample).** Identifier uniqueness fails on a reachable
snapshot: `createInitialState` with seed 167622246 returns an initial wave
in which two distinct live asteroids share the id 231699845 (the RNG id
stream has no deduplication). -/
theorem id_unique_counterexample :
    createInitialState 100000 100000 0 167622246 99 = some c9state ∧
    (c9state.asteroids.map fun a => a.id) =
      [754564639, 232505577, 231699845, 231699845] ∧
    ¬ (c9state.asteroids.map fun a => a.id).Nodup := by
  refine ⟨c9_create, ?_, ?_⟩
  · show (c9wave.map fun a => a.id) = _
    exact c9_ids
  · show ¬ (c9wave.map fun a => a.id).Nodup
    rw [c9_ids]
    decide

end OpenAstroids
